import Mathlib

/-!
Verification of the coordinator-monitoring core of
`aleo-setup-integration-test` (`src/coordinator.rs`).

Lines of coordinator output are modelled as `List Char`.  Each regular
expression from the source is embedded as an executable matcher that is
exact for the shape of that expression: every pattern there is a sequence
of literals, a single-character wildcard, or a one-or-more digit / address
class whose following literal cannot start with a character of the class,
so maximal munch at a position is complete, and the leading greedy `.*`
selects the last viable starting position.
-/

namespace AleoSetupTest

abbrev Line := List Char

/-- Character class `[a-z0-9]` used by the address captures. -/
def addrChar (c : Char) : Bool := c.isLower || c.isDigit

/-- Does some suffix of the line satisfy `p`?  This is exactly unanchored
regex matching: a regex `.*R.*` (or `.*R`) matches a line iff `R` matches
at the head of some suffix. -/
def anySuffix (p : Line → Bool) : Line → Bool
  | [] => p []
  | c :: s => p (c :: s) || anySuffix p s

/-- Capture at the last suffix where `p` succeeds: the leading greedy `.*`
of every capturing regex in the source makes the engine pick the last
viable starting position. -/
def lastSuffixCapture {α : Type} (p : Line → Option α) : Line → Option α
  | [] => p []
  | c :: s =>
    match lastSuffixCapture p s with
    | some a => some a
    | none => p (c :: s)

/-- Matcher at the head of a suffix for the regex fragment
`A[0-9]+B` (literal `A`, one or more digits, literal `B`), exact whenever
`B` does not start with a digit (true for every use below). -/
def litDigitsLitAt (a b : Line) (s : Line) : Bool :=
  a.isPrefixOf s &&
    (let r := s.drop a.length
     (match r with
      | [] => false
      | c :: _ => c.isDigit) &&
       b.isPrefixOf (r.dropWhile Char.isDigit))

/-- `BOOTED_RE`: `.*Coordinator has booted up.*`. -/
def bootedIsMatch (line : Line) : Bool :=
  anySuffix (fun s => "Coordinator has booted up".data.isPrefixOf s) line

/-- `ROUND_STARTED_RE`: `.*Advanced ceremony to round [0-9]+.*`. -/
def roundStartedIsMatch (line : Line) : Bool :=
  anySuffix (litDigitsLitAt "Advanced ceremony to round ".data []) line

/-- `ROUND_STARTED_AGGREGATION_RE`: `.*Starting aggregation on round [0-9]+`. -/
def roundStartedAggregationIsMatch (line : Line) : Bool :=
  anySuffix (litDigitsLitAt "Starting aggregation on round ".data []) line

/-- `ROUND_AGGREGATED_RE`: `.*Round [0-9]+ is aggregated.*`. -/
def roundAggregatedIsMatch (line : Line) : Bool :=
  anySuffix (litDigitsLitAt "Round ".data " is aggregated".data) line

/-- `ROUND_FINISHED_RE`: `.*Round [0-9]+ is finished.*`. -/
def roundFinishedIsMatch (line : Line) : Bool :=
  anySuffix (litDigitsLitAt "Round ".data " is finished".data) line

def noContributorsLitA : Line :=
  "No contributors remaining to reset and complete the current round".data

def noContributorsLitB : Line :=
  " Rolling back to round 0 to wait and accept new participants".data

/-- `ROUND_RESTARTED_NO_CONTRIBUTORS_RE`; the unescaped `.` after
`current round` in the source regex is a single-character wildcard. -/
def roundRestartedNoContributorsIsMatch (line : Line) : Bool :=
  anySuffix
    (fun s =>
      noContributorsLitA.isPrefixOf s &&
        (match s.drop noContributorsLitA.length with
         | [] => false
         | _ :: r => noContributorsLitB.isPrefixOf r))
    line

/-- `DROPPED_PARTICIPANT_RE` at the head of a suffix:
`Dropping (?P<address>aleo[a-z0-9]+)[.](?P<participant_type>contributor|verifier) from the ceremony`.
Returns the `address` and `participant_type` captures. -/
def droppedAt (s : Line) : Option (Line × Line) :=
  if "Dropping ".data.isPrefixOf s then
    let r := s.drop "Dropping ".data.length
    if "aleo".data.isPrefixOf r then
      let body := r.drop "aleo".data.length
      let run := body.takeWhile addrChar
      let rest := body.dropWhile addrChar
      if run.isEmpty then none
      else
        match rest with
        | '.' :: r2 =>
          if ("contributor".data ++ " from the ceremony".data).isPrefixOf r2 then
            some ("aleo".data ++ run, "contributor".data)
          else if ("verifier".data ++ " from the ceremony".data).isPrefixOf r2 then
            some ("aleo".data ++ run, "verifier".data)
          else none
        | _ => none
    else none
  else none

/-- `DROPPED_PARTICIPANT_RE.captures`. -/
def droppedCapture (line : Line) : Option (Line × Line) :=
  lastSuffixCapture droppedAt line

/-- `SUCCESSFUL_CONTRIBUTION_RE` at the head of a suffix:
`((?P<address>aleo[a-z0-9]+)[.]contributor) added a contribution to chunk (?P<chunk>[0-9]+)`.
Returns the `address` capture and the digits of the `chunk` capture. -/
def contributionAt (s : Line) : Option (Line × Line) :=
  if "aleo".data.isPrefixOf s then
    let body := s.drop "aleo".data.length
    let run := body.takeWhile addrChar
    let rest := body.dropWhile addrChar
    if run.isEmpty then none
    else
      match rest with
      | '.' :: r2 =>
        if "contributor added a contribution to chunk ".data.isPrefixOf r2 then
          let r3 := r2.drop "contributor added a contribution to chunk ".data.length
          let ds := r3.takeWhile Char.isDigit
          if ds.isEmpty then none else some ("aleo".data ++ run, ds)
        else none
      | _ => none
  else none

/-- `SUCCESSFUL_CONTRIBUTION_RE.captures`. -/
def contributionCapture (line : Line) : Option (Line × Line) :=
  lastSuffixCapture contributionAt line

/-- Digits of a numeric capture, as a natural number. -/
def digitsToNat (ds : Line) : Nat :=
  ds.foldl (fun n c => 10 * n + (c.toNat - 48)) 0

/-- `u64::from_str` on a non-empty digit string: fails on overflow. -/
def u64FromDigits (ds : Line) : Option Nat :=
  let n := digitsToNat ds
  if n < 2 ^ 64 then some n else none

/-- `ParticipantRef` from the crate root: a participant together with its
role.  Addresses (`AleoPublicKey`) are carried as their strings. -/
inductive ParticipantRef
  | contributor (address : Line)
  | verifier (address : Line)
deriving DecidableEq

/-- `ShutdownReason`; only `TestFinished` is constructed in this module. -/
inductive ShutdownReason
  | testFinished
deriving DecidableEq

/-- The `CeremonyMessage` variants broadcast by `coordinator.rs`. -/
inductive CeremonyMessage
  | roundWaitingForParticipants (round : Nat)
  | roundStarted (round : Nat)
  | roundStartedAggregation (round : Nat)
  | roundAggregated (round : Nat)
  | roundFinished (round : Nat)
  | participantDropped (participant : ParticipantRef)
  | successfulContribution (address : Line) (chunk : Nat)
  | shutdown (reason : ShutdownReason)
deriving DecidableEq

/-- `CoordinatorState` from `coordinator.rs`. -/
inductive CoordinatorState
  | processStarted
  | roundWaitingForParticipants (round : Nat)
  | roundRunning (round : Nat)
  | roundAggregating (round : Nat)
  | roundWaitingForFinish (round : Nat)
  | roundFinished (round : Nat)
deriving DecidableEq

/-- The fatal line-level errors produced by `check_participant_dropped`
and `parse_output_line` (spec taxonomy: AddressParseError,
UnknownRoleError, NumberParseError). -/
inductive ParseErr
  | addressParse
  | unknownRole
  | numberParse
deriving DecidableEq

/-- `CoordinatorStateReporter::check_participant_dropped`.  The external
`AleoPublicKey::from_str` validator is passed in as `keyOk`; the Rust code
parses the address before inspecting the role token. -/
def check_participant_dropped (keyOk : Line → Bool) (line : Line) :
    Except ParseErr (Option CeremonyMessage) :=
  match droppedCapture line with
  | none => .ok none
  | some (addr, role) =>
    if keyOk addr then
      if role = "contributor".data then
        .ok (some (.participantDropped (.contributor addr)))
      else if role = "verifier".data then
        .ok (some (.participantDropped (.verifier addr)))
      else .error .unknownRole
    else .error .addressParse

/-- `CoordinatorStateReporter::parse_output_line`.  Returns the messages
broadcast while processing the line (in broadcast order) and either the
new state or the propagated fatal error. -/
def parse_output_line (keyOk : Line → Bool) (st : CoordinatorState) (line : Line) :
    List CeremonyMessage × Except ParseErr CoordinatorState :=
  match st with
  | .processStarted =>
    if bootedIsMatch line then
      ([.roundWaitingForParticipants 1], .ok (.roundWaitingForParticipants 1))
    else ([], .ok .processStarted)
  | .roundWaitingForParticipants round =>
    match check_participant_dropped keyOk line with
    | .error e => ([], .error e)
    | .ok dropEv =>
      if roundStartedIsMatch line then
        (dropEv.toList ++ [.roundStarted round], .ok (.roundRunning round))
      else (dropEv.toList, .ok (.roundWaitingForParticipants round))
  | .roundRunning round =>
    match check_participant_dropped keyOk line with
    | .error e => ([], .error e)
    | .ok dropEv =>
      let evs :=
        dropEv.toList
          ++ (if roundStartedAggregationIsMatch line then
                [CeremonyMessage.roundStartedAggregation round]
              else [])
          ++ (if roundRestartedNoContributorsIsMatch line then
                [CeremonyMessage.shutdown ShutdownReason.testFinished]
              else [])
      let st2 :=
        if roundRestartedNoContributorsIsMatch line then
          CoordinatorState.roundFinished round
        else if roundStartedAggregationIsMatch line then
          CoordinatorState.roundAggregating round
        else CoordinatorState.roundRunning round
      match contributionCapture line with
      | none => (evs, .ok st2)
      | some (addr, ds) =>
        match u64FromDigits ds with
        | none => (evs, .error .numberParse)
        | some chunk =>
          if keyOk addr then
            (evs ++ [.successfulContribution addr chunk], .ok st2)
          else (evs, .error .addressParse)
  | .roundAggregating round =>
    if roundAggregatedIsMatch line then
      ([.roundAggregated round], .ok (.roundWaitingForFinish round))
    else ([], .ok (.roundAggregating round))
  | .roundWaitingForFinish round =>
    if roundFinishedIsMatch line then
      ([.roundFinished round], .ok (.roundFinished round))
    else ([], .ok (.roundWaitingForFinish round))
  | .roundFinished round =>
    ([.roundWaitingForParticipants (round + 1)],
      .ok (.roundWaitingForParticipants (round + 1)))

/-- Processing a whole sequence of lines from a given state: the state
reporter applied line by line, stopping at the first fatal error.
Events broadcast before the error are kept. -/
def processLines (keyOk : Line → Bool) (st : CoordinatorState) :
    List Line → List CeremonyMessage × Except ParseErr CoordinatorState
  | [] => ([], .ok st)
  | line :: rest =>
    match parse_output_line keyOk st line with
    | (evs, .error e) => (evs, .error e)
    | (evs, .ok st') =>
      let r := processLines keyOk st' rest
      (evs ++ r.1, r.2)

instance exceptDecEq {ε α : Type} [DecidableEq ε] [DecidableEq α] :
    DecidableEq (Except ε α) := fun x y =>
  match x, y with
  | .ok a, .ok b =>
    if h : a = b then .isTrue (congrArg Except.ok h)
    else .isFalse (fun hh => h (Except.ok.inj hh))
  | .error a, .error b =>
    if h : a = b then .isTrue (congrArg Except.error h)
    else .isFalse (fun hh => h (Except.error.inj hh))
  | .ok _, .error _ => .isFalse (fun hh => Except.noConfusion hh)
  | .error _, .ok _ => .isFalse (fun hh => Except.noConfusion hh)

/-- The result of one monitoring session: messages broadcast, raw lines
appended to the archive log (in order), and either the final reporter
state at end-of-stream or the fatal error that stopped the loop. -/
structure MonitorResult where
  events : List CeremonyMessage
  archived : List Line
  result : Except ParseErr CoordinatorState
deriving DecidableEq

/-- The line loop of `monitor_coordinator`.  Each element of the input is
one `line_result` from the buffered reader: `none` is a read error (logged
and skipped, loop continues), `some line` a successfully read line, which
is parsed first and appended to the log file only afterwards; a fatal
parse error propagates immediately via `?`. -/
def monitor_coordinator (keyOk : Line → Bool) (st : CoordinatorState) :
    List (Option Line) → MonitorResult
  | [] => ⟨[], [], .ok st⟩
  | none :: rest => monitor_coordinator keyOk st rest
  | some line :: rest =>
    match parse_output_line keyOk st line with
    | (evs, .error e) => ⟨evs, [], .error e⟩
    | (evs, .ok st') =>
      let r := monitor_coordinator keyOk st' rest
      ⟨evs ++ r.events, line :: r.archived, r.result⟩

/-- `RoundState`, the parsed form of the round's `state.json` membership
snapshot. -/
structure RoundState where
  contributorIds : List Line
  verifierIds : List Line
deriving DecidableEq

/-- An expected contributor, reduced to the only datum
`check_participants_in_round` reads from it: `Contributor::id_on_coordinator`. -/
structure Contributor where
  idOnCoordinator : Line
deriving DecidableEq

/-- An expected verifier; `check_participants_in_round` receives the list
but never reads it. -/
structure Verifier where
  address : Line
deriving DecidableEq

/-- `check_participants_in_round`, after the snapshot file has been read
and deserialized into `state`: for each expected contributor in order,
look its id up in the snapshot's contributor ids and fail with a message
naming it when absent. -/
def check_participants_in_round (state : RoundState)
    (contributors : List Contributor) (verifiers : List Verifier) :
    Except Line Unit :=
  match contributors with
  | [] => .ok ()
  | c :: rest =>
    if state.contributorIds.contains c.idOnCoordinator then
      check_participants_in_round state rest verifiers
    else .error c.idOnCoordinator

/-- `RuntimeParameters` (`NonZeroU64`, `NonZeroU16` fields carried as
naturals). -/
structure RuntimeParameters where
  operator_update_loop_delay : Nat
  rayon_global_pool_threads : Nat
deriving DecidableEq

/-- `EnvironmentParameters` (`NonZeroUsize` fields as naturals, `i64`
timeouts as integers). -/
structure EnvironmentParameters where
  minimum_contributors_per_round : Nat
  maximum_contributors_per_round : Nat
  contributor_seen_timeout : Int
  participant_lock_timeout : Int
  queue_seen_timeout : Int
deriving DecidableEq

/-- `VerifierSettings`. -/
structure VerifierSettings where
  assigned_tasks_cache_ttl : Nat
  assigned_tasks_cache_records_cap : Nat
deriving DecidableEq

/-- `ReliabilityCheckSettings` (`NonZeroU8`/`u8`/`u64` fields as
naturals). -/
structure ReliabilityCheckSettings where
  is_enabled : Bool
  accept_threshold : Nat
  maximum_score : Nat
  estimation_interval : Nat
  number_of_challenges : Nat
  challenge_size : Nat
  total_size : Nat
  batch_size : Nat
deriving DecidableEq

/-- `TwitterSettings`. -/
structure TwitterSettings where
  consumer_token : Line
  consumer_secret : Line
deriving DecidableEq

/-- `CoordinatorTomlConfiguration`.  `listen_address` (a socket address)
and `sqlite_file` (a path) are carried as their serialized strings, as is
the `setup` environment selection. -/
structure CoordinatorTomlConfiguration where
  listen_address : Line
  sqlite_file : Line
  setup : Line
  replacement_contributors : List Line
  runtime_parameters : RuntimeParameters
  environment_parameters : EnvironmentParameters
  verifier_settings : VerifierSettings
  reliability_check : ReliabilityCheckSettings
  twitter_settings : TwitterSettings
deriving DecidableEq

/-- `ContributorRef`: a contributor known by its public key. -/
structure ContributorRef where
  address : Line
deriving DecidableEq

/-- `CoordinatorConfig`, the run configuration (paths as strings, the
environment selection as its serialized name). -/
structure CoordinatorConfig where
  crate_dir : Line
  setup_coordinator_bin : Line
  environment : Line
  out_dir : Line
  replacement_contributors : List ContributorRef
deriving DecidableEq

/-- `impl From<&CoordinatorConfig> for CoordinatorTomlConfiguration`:
the fully-defaulted configuration record. -/
def coordinatorTomlConfigurationFrom (config : CoordinatorConfig) :
    CoordinatorTomlConfiguration where
  listen_address := "0.0.0.0:9000".data
  sqlite_file := "setup.db3".data
  setup := config.environment
  replacement_contributors := config.replacement_contributors.map (·.address)
  runtime_parameters :=
    { operator_update_loop_delay := 10000
      rayon_global_pool_threads := 30 }
  environment_parameters :=
    { minimum_contributors_per_round := 1
      maximum_contributors_per_round := 5
      contributor_seen_timeout := 3600
      participant_lock_timeout := 900
      queue_seen_timeout := 3600 }
  verifier_settings :=
    { assigned_tasks_cache_ttl := 60
      assigned_tasks_cache_records_cap := 1000 }
  reliability_check :=
    { is_enabled := false
      accept_threshold := 8
      maximum_score := 100
      estimation_interval := 60
      number_of_challenges := 10
      challenge_size := 6291456
      total_size := 11
      batch_size := 2 }
  twitter_settings :=
    { consumer_token := "some_token".data
      consumer_secret := "some_secret".data }

/-- Modelled from the spec: the configuration document (§6) produced by
the external `toml`/serde serialization machinery, as a structured value
tree; the textual layer of the `toml` crate is outside this repository. -/
inductive TomlValue
  | vStr (s : Line)
  | vInt (n : Int)
  | vBool (b : Bool)
  | vStrArray (xs : List Line)
  | vTable (fields : List (Line × TomlValue))

def lookupStr (fs : List (Line × TomlValue)) (k : Line) : Option Line :=
  match List.lookup k fs with
  | some (.vStr s) => some s
  | _ => none

def lookupInt (fs : List (Line × TomlValue)) (k : Line) : Option Int :=
  match List.lookup k fs with
  | some (.vInt n) => some n
  | _ => none

def lookupBool (fs : List (Line × TomlValue)) (k : Line) : Option Bool :=
  match List.lookup k fs with
  | some (.vBool b) => some b
  | _ => none

def lookupStrArray (fs : List (Line × TomlValue)) (k : Line) : Option (List Line) :=
  match List.lookup k fs with
  | some (.vStrArray xs) => some xs
  | _ => none

def lookupTable (fs : List (Line × TomlValue)) (k : Line) :
    Option (List (Line × TomlValue)) :=
  match List.lookup k fs with
  | some (.vTable gs) => some gs
  | _ => none

/-- Modelled from the spec: deserializing an unsigned integer of width
`w` bits that must be non-zero (`NonZeroU8`/`U16`/`U64`/`Usize`). -/
def lookupNonZero (w : Nat) (fs : List (Line × TomlValue)) (k : Line) : Option Nat :=
  match lookupInt fs k with
  | some n => if 0 < n ∧ n < (2 : Int) ^ w then some n.toNat else none
  | none => none

/-- Modelled from the spec: deserializing a plain unsigned integer of
width `w` bits (`u8`/`u64`). -/
def lookupUnsigned (w : Nat) (fs : List (Line × TomlValue)) (k : Line) : Option Nat :=
  match lookupInt fs k with
  | some n => if 0 ≤ n ∧ n < (2 : Int) ^ w then some n.toNat else none
  | none => none

/-- Modelled from the spec: deserializing an `i64`. -/
def lookupI64 (fs : List (Line × TomlValue)) (k : Line) : Option Int :=
  match lookupInt fs k with
  | some n => if -((2 : Int) ^ 63) ≤ n ∧ n < (2 : Int) ^ 63 then some n else none
  | none => none

def RuntimeParameters.toToml (p : RuntimeParameters) : TomlValue :=
  .vTable
    [("operator_update_loop_delay".data, .vInt p.operator_update_loop_delay),
     ("rayon_global_pool_threads".data, .vInt p.rayon_global_pool_threads)]

def RuntimeParameters.ofToml (v : TomlValue) : Option RuntimeParameters :=
  match v with
  | .vTable fs =>
    match lookupNonZero 64 fs "operator_update_loop_delay".data,
        lookupNonZero 16 fs "rayon_global_pool_threads".data with
    | some a, some b => some ⟨a, b⟩
    | _, _ => none
  | _ => none

def EnvironmentParameters.toToml (p : EnvironmentParameters) : TomlValue :=
  .vTable
    [("minimum_contributors_per_round".data, .vInt p.minimum_contributors_per_round),
     ("maximum_contributors_per_round".data, .vInt p.maximum_contributors_per_round),
     ("contributor_seen_timeout".data, .vInt p.contributor_seen_timeout),
     ("participant_lock_timeout".data, .vInt p.participant_lock_timeout),
     ("queue_seen_timeout".data, .vInt p.queue_seen_timeout)]

def EnvironmentParameters.ofToml (v : TomlValue) : Option EnvironmentParameters :=
  match v with
  | .vTable fs =>
    match lookupNonZero 64 fs "minimum_contributors_per_round".data,
        lookupNonZero 64 fs "maximum_contributors_per_round".data,
        lookupI64 fs "contributor_seen_timeout".data,
        lookupI64 fs "participant_lock_timeout".data,
        lookupI64 fs "queue_seen_timeout".data with
    | some a, some b, some c, some d, some e => some ⟨a, b, c, d, e⟩
    | _, _, _, _, _ => none
  | _ => none

def VerifierSettings.toToml (p : VerifierSettings) : TomlValue :=
  .vTable
    [("assigned_tasks_cache_ttl".data, .vInt p.assigned_tasks_cache_ttl),
     ("assigned_tasks_cache_records_cap".data, .vInt p.assigned_tasks_cache_records_cap)]

def VerifierSettings.ofToml (v : TomlValue) : Option VerifierSettings :=
  match v with
  | .vTable fs =>
    match lookupNonZero 64 fs "assigned_tasks_cache_ttl".data,
        lookupNonZero 64 fs "assigned_tasks_cache_records_cap".data with
    | some a, some b => some ⟨a, b⟩
    | _, _ => none
  | _ => none

def ReliabilityCheckSettings.toToml (p : ReliabilityCheckSettings) : TomlValue :=
  .vTable
    [("is_enabled".data, .vBool p.is_enabled),
     ("accept_threshold".data, .vInt p.accept_threshold),
     ("maximum_score".data, .vInt p.maximum_score),
     ("estimation_interval".data, .vInt p.estimation_interval),
     ("number_of_challenges".data, .vInt p.number_of_challenges),
     ("challenge_size".data, .vInt p.challenge_size),
     ("total_size".data, .vInt p.total_size),
     ("batch_size".data, .vInt p.batch_size)]

def ReliabilityCheckSettings.ofToml (v : TomlValue) : Option ReliabilityCheckSettings :=
  match v with
  | .vTable fs =>
    match lookupBool fs "is_enabled".data,
        lookupNonZero 8 fs "accept_threshold".data,
        lookupUnsigned 8 fs "maximum_score".data,
        lookupUnsigned 8 fs "estimation_interval".data,
        lookupUnsigned 8 fs "number_of_challenges".data,
        lookupUnsigned 64 fs "challenge_size".data,
        lookupUnsigned 8 fs "total_size".data,
        lookupUnsigned 8 fs "batch_size".data with
    | some a, some b, some c, some d, some e, some f, some g, some h =>
      some ⟨a, b, c, d, e, f, g, h⟩
    | _, _, _, _, _, _, _, _ => none
  | _ => none

def TwitterSettings.toToml (p : TwitterSettings) : TomlValue :=
  .vTable
    [("consumer_token".data, .vStr p.consumer_token),
     ("consumer_secret".data, .vStr p.consumer_secret)]

def TwitterSettings.ofToml (v : TomlValue) : Option TwitterSettings :=
  match v with
  | .vTable fs =>
    match lookupStr fs "consumer_token".data, lookupStr fs "consumer_secret".data with
    | some a, some b => some ⟨a, b⟩
    | _, _ => none
  | _ => none

/-- Modelled from the spec: serializing the coordinator configuration
record to the configuration document, field for field in declaration
order. -/
def CoordinatorTomlConfiguration.toToml (c : CoordinatorTomlConfiguration) :
    List (Line × TomlValue) :=
  [("listen_address".data, .vStr c.listen_address),
   ("sqlite_file".data, .vStr c.sqlite_file),
   ("setup".data, .vStr c.setup),
   ("replacement_contributors".data, .vStrArray c.replacement_contributors),
   ("runtime_parameters".data, c.runtime_parameters.toToml),
   ("environment_parameters".data, c.environment_parameters.toToml),
   ("verifier_settings".data, c.verifier_settings.toToml),
   ("reliability_check".data, c.reliability_check.toToml),
   ("twitter_settings".data, c.twitter_settings.toToml)]

/-- Modelled from the spec: re-parsing the configuration document into a
coordinator configuration record; every field is required. -/
def CoordinatorTomlConfiguration.ofToml (fs : List (Line × TomlValue)) :
    Option CoordinatorTomlConfiguration :=
  match lookupStr fs "listen_address".data,
      lookupStr fs "sqlite_file".data,
      lookupStr fs "setup".data,
      lookupStrArray fs "replacement_contributors".data with
  | some la, some sf, some se, some rc =>
    match lookupTable fs "runtime_parameters".data,
        lookupTable fs "environment_parameters".data,
        lookupTable fs "verifier_settings".data,
        lookupTable fs "reliability_check".data,
        lookupTable fs "twitter_settings".data with
    | some rp, some ep, some vs, some rl, some tw =>
      match RuntimeParameters.ofToml (.vTable rp),
          EnvironmentParameters.ofToml (.vTable ep),
          VerifierSettings.ofToml (.vTable vs),
          ReliabilityCheckSettings.ofToml (.vTable rl),
          TwitterSettings.ofToml (.vTable tw) with
      | some rp', some ep', some vs', some rl', some tw' =>
        some ⟨la, sf, se, rc, rp', ep', vs', rl', tw'⟩
      | _, _, _, _, _ => none
    | _, _, _, _, _ => none
  | _, _, _, _ => none

lemma check_dropped_of_capture_none (keyOk : Line → Bool) (line : Line)
    (h : droppedCapture line = none) :
    check_participant_dropped keyOk line = .ok none := by
  simp [check_participant_dropped, h]

/-- One reporter run: a fresh state machine (state `ProcessStarted`, as
built by `CoordinatorStateReporter::process_started`) processes the line
sequence and produces the given events and outcome. -/
def CoordinatorStateReporterRun (keyOk : Line → Bool) (lines : List Line)
    (out : List CeremonyMessage × Except ParseErr CoordinatorState) : Prop :=
  processLines keyOk CoordinatorState.processStarted lines = out

/-- C4: in phase `RoundFinished(r)`, any line (the line is never
inspected) emits exactly one `RoundWaitingForParticipants(r+1)` and moves
the phase to `WaitingForParticipants(r+1)`, for every address validator. -/
theorem C4_roundFinished_unconditional_advance (keyOk : Line → Bool) (r : Nat)
    (line : Line) :
    parse_output_line keyOk (CoordinatorState.roundFinished r) line
      = ([CeremonyMessage.roundWaitingForParticipants (r + 1)],
          Except.ok (CoordinatorState.roundWaitingForParticipants (r + 1))) := rfl

/-- C7: in phase `ProcessStarted`, a boot-completion line emits exactly
one `RoundWaitingForParticipants(1)` and moves the phase to
`WaitingForParticipants(1)`; any other line emits nothing and leaves the
phase unchanged. -/
theorem C7_processStarted_boot (keyOk : Line → Bool) (line : Line) :
    parse_output_line keyOk CoordinatorState.processStarted line
      = if bootedIsMatch line then
          ([CeremonyMessage.roundWaitingForParticipants 1],
            Except.ok (CoordinatorState.roundWaitingForParticipants 1))
        else ([], Except.ok CoordinatorState.processStarted) := rfl

/-- C9: the state machine is deterministic: two freshly constructed
reporters fed the same line sequence produce the same events and the same
final outcome. -/
theorem C9_deterministic (keyOk : Line → Bool) (lines : List Line)
    (o1 o2 : List CeremonyMessage × Except ParseErr CoordinatorState)
    (h1 : CoordinatorStateReporterRun keyOk lines o1)
    (h2 : CoordinatorStateReporterRun keyOk lines o2) : o1 = o2 :=
  h1.symm.trans h2

/-- Witness for C9 at a concrete boot line. -/
theorem C9_deterministic_witness :
    ([CeremonyMessage.roundWaitingForParticipants 1],
        (Except.ok (CoordinatorState.roundWaitingForParticipants 1) :
          Except ParseErr CoordinatorState))
      = ([CeremonyMessage.roundWaitingForParticipants 1],
          Except.ok (CoordinatorState.roundWaitingForParticipants 1)) :=
  C9_deterministic (fun _ => true) ["Coordinator has booted up".data] _ _ rfl rfl

/-- C6: in `RoundRunning(r)`, the aggregation and no-contributors-restart
patterns are tested independently: a line matching both (and matching
neither capture pattern) emits `RoundStartedAggregation(r)` followed by
`ShutdownRequested(TestFinished)`, and the phase ends at
`RoundFinished(r)`. -/
theorem C6_both_patterns_fire (keyOk : Line → Bool) (r : Nat) (line : Line)
    (ha : roundStartedAggregationIsMatch line = true)
    (hn : roundRestartedNoContributorsIsMatch line = true)
    (hd : droppedCapture line = none)
    (hc : contributionCapture line = none) :
    parse_output_line keyOk (CoordinatorState.roundRunning r) line
      = ([CeremonyMessage.roundStartedAggregation r,
          CeremonyMessage.shutdown ShutdownReason.testFinished],
          Except.ok (CoordinatorState.roundFinished r)) := by
  simp [parse_output_line, check_dropped_of_capture_none keyOk line hd, ha, hn, hc]

set_option maxRecDepth 40000 in
/-- Witness for C6: a concrete line containing both lifecycle phrases. -/
theorem C6_both_patterns_fire_witness :
    parse_output_line (fun _ => true) (CoordinatorState.roundRunning 2)
      ("Starting aggregation on round 2 No contributors remaining to reset"
        ++ " and complete the current round. Rolling back to round 0 to wait"
        ++ " and accept new participants").data
      = ([CeremonyMessage.roundStartedAggregation 2,
          CeremonyMessage.shutdown ShutdownReason.testFinished],
          Except.ok (CoordinatorState.roundFinished 2)) :=
  C6_both_patterns_fire (fun _ => true) 2 _ (by decide) (by decide) (by decide)
    (by decide)

/-- C2 counterexample: a dropped-participant line whose role token is
`participant` (neither `contributor` nor `verifier`) does not halt
processing: in phase `WaitingForParticipants(1)` it yields no error and
no event, and the phase is unchanged, contradicting the claimed
`UnknownRoleError`. -/
theorem C2_counterexample :
    parse_output_line (fun _ => true) (CoordinatorState.roundWaitingForParticipants 1)
      "Dropping aleo1abc.participant from the ceremony".data
      = ([], Except.ok (CoordinatorState.roundWaitingForParticipants 1)) := by
  decide
/-- C2 amended: a line on which the dropped-participant pattern yields no
capture — in particular any line whose role token is not exactly
`contributor` or `verifier`, since the pattern's role alternation only
admits those two — never halts processing with `UnknownRoleError` and
never emits a `ParticipantDropped` event, in every phase. -/
theorem C2_amended_no_unknown_role (keyOk : Line → Bool) (st : CoordinatorState)
    (line : Line) (h : droppedCapture line = none) :
    ((parse_output_line keyOk st line).2 == Except.error ParseErr.unknownRole) = false
    ∧ ∀ p, CeremonyMessage.participantDropped p ∉ (parse_output_line keyOk st line).1 := by
  have hc := check_dropped_of_capture_none keyOk line h
  rw [beq_eq_false_iff_ne]
  cases st <;> simp only [parse_output_line, hc] <;> repeat' split
  all_goals simp_all [Option.toList]

/-- Witness for C2's amended claim at the unknown-role line. -/
theorem C2_amended_no_unknown_role_witness :
    ((parse_output_line (fun _ => true) CoordinatorState.processStarted
          "Dropping aleo1abc.participant from the ceremony".data).2
        == Except.error ParseErr.unknownRole) = false
    ∧ ∀ p, CeremonyMessage.participantDropped p
        ∉ (parse_output_line (fun _ => true) CoordinatorState.processStarted
            "Dropping aleo1abc.participant from the ceremony".data).1 :=
  C2_amended_no_unknown_role (fun _ => true) CoordinatorState.processStarted _
    (by decide)

/-- C3: the membership verifier (applied to the parsed snapshot) succeeds
iff every expected contributor id is among the snapshot's contributor
ids; on failure the error names the first absent contributor; and the
expected verifier list is never consulted. -/
theorem C3_membership_check (state : RoundState) (contributors : List Contributor)
    (vs vs' : List Verifier) :
    (check_participants_in_round state contributors vs = .ok () ↔
       ∀ c ∈ contributors, c.idOnCoordinator ∈ state.contributorIds)
    ∧ (∀ e, check_participants_in_round state contributors vs = .error e ↔
         ∃ c, contributors.find?
             (fun c => ! state.contributorIds.contains c.idOnCoordinator) = some c
           ∧ e = c.idOnCoordinator)
    ∧ check_participants_in_round state contributors vs
        = check_participants_in_round state contributors vs' := by
  induction contributors with
  | nil => simp [check_participants_in_round]
  | cons c rest ih =>
    rcases ih with ⟨ih1, ih2, ih3⟩
    have hstep : ∀ w, check_participants_in_round state (c :: rest) w
        = if state.contributorIds.contains c.idOnCoordinator then
            check_participants_in_round state rest w
          else .error c.idOnCoordinator := fun _ => rfl
    by_cases hmem : c.idOnCoordinator ∈ state.contributorIds
    · have hb : state.contributorIds.contains c.idOnCoordinator = true := by
        simpa using hmem
      refine ⟨?_, fun e => ?_, ?_⟩
      · rw [hstep, if_pos hb, ih1]
        simp [hmem]
      · rw [hstep, if_pos hb, ih2 e]
        simp [List.find?, hmem]
      · rw [hstep, hstep, if_pos hb, if_pos hb, ih3]
    · have hb : state.contributorIds.contains c.idOnCoordinator = false := by
        cases hcb : state.contributorIds.contains c.idOnCoordinator with
        | false => rfl
        | true => exact absurd (by simpa using hcb) hmem
      have hb' : ¬ state.contributorIds.contains c.idOnCoordinator = true :=
        fun hh => hmem (by simpa using hh)
      refine ⟨?_, fun e => ?_, ?_⟩
      · rw [hstep, if_neg hb']
        simp [hmem]
      · rw [hstep, if_neg hb']
        simp [List.find?, hmem]
        exact eq_comm
      · rw [hstep, hstep, if_neg hb', if_neg hb']

/-- Witness for C3 at a concrete snapshot and expectation lists. -/
theorem C3_membership_check_witness :
    (check_participants_in_round ⟨["a".data], []⟩ [⟨"a".data⟩] [⟨"v".data⟩] = .ok () ↔
       ∀ c ∈ [Contributor.mk "a".data], c.idOnCoordinator ∈ ["a".data])
    ∧ (∀ e, check_participants_in_round ⟨["a".data], []⟩ [⟨"a".data⟩] [⟨"v".data⟩]
          = .error e ↔
         ∃ c, List.find? (fun c => ! List.contains ["a".data] c.idOnCoordinator)
             [Contributor.mk "a".data] = some c ∧ e = c.idOnCoordinator)
    ∧ check_participants_in_round ⟨["a".data], []⟩ [⟨"a".data⟩] [⟨"v".data⟩]
        = check_participants_in_round ⟨["a".data], []⟩ [⟨"a".data⟩] [] :=
  C3_membership_check ⟨["a".data], []⟩ [⟨"a".data⟩] [⟨"v".data⟩] []

set_option maxRecDepth 3000 in
/-- C10: the fully-defaulted configuration record built from any run
configuration, serialized to the configuration document and re-parsed,
reproduces every field exactly. -/
theorem C10_config_round_trip (config : CoordinatorConfig) :
    CoordinatorTomlConfiguration.ofToml
        (CoordinatorTomlConfiguration.toToml (coordinatorTomlConfigurationFrom config))
      = some (coordinatorTomlConfigurationFrom config) := by
  have h : CoordinatorTomlConfiguration.toToml (coordinatorTomlConfigurationFrom config)
      = [("listen_address".data, .vStr "0.0.0.0:9000".data),
         ("sqlite_file".data, .vStr "setup.db3".data),
         ("setup".data, .vStr config.environment),
         ("replacement_contributors".data,
           .vStrArray (config.replacement_contributors.map (fun x => x.address))),
         ("runtime_parameters".data, .vTable
            [("operator_update_loop_delay".data, .vInt 10000),
             ("rayon_global_pool_threads".data, .vInt 30)]),
         ("environment_parameters".data, .vTable
            [("minimum_contributors_per_round".data, .vInt 1),
             ("maximum_contributors_per_round".data, .vInt 5),
             ("contributor_seen_timeout".data, .vInt 3600),
             ("participant_lock_timeout".data, .vInt 900),
             ("queue_seen_timeout".data, .vInt 3600)]),
         ("verifier_settings".data, .vTable
            [("assigned_tasks_cache_ttl".data, .vInt 60),
             ("assigned_tasks_cache_records_cap".data, .vInt 1000)]),
         ("reliability_check".data, .vTable
            [("is_enabled".data, .vBool false),
             ("accept_threshold".data, .vInt 8),
             ("maximum_score".data, .vInt 100),
             ("estimation_interval".data, .vInt 60),
             ("number_of_challenges".data, .vInt 10),
             ("challenge_size".data, .vInt 6291456),
             ("total_size".data, .vInt 11),
             ("batch_size".data, .vInt 2)]),
         ("twitter_settings".data, .vTable
            [("consumer_token".data, .vStr "some_token".data),
             ("consumer_secret".data, .vStr "some_secret".data)])] := rfl
  rw [h]
  exact rfl

lemma monitor_ok_archived (keyOk : Line → Bool) :
    ∀ (pre : List (Option Line)) (st0 : CoordinatorState) (evs : List CeremonyMessage)
      (arch : List Line) (st' : CoordinatorState),
      monitor_coordinator keyOk st0 pre = ⟨evs, arch, .ok st'⟩ →
        arch = pre.filterMap id := by
  intro pre
  induction pre with
  | nil =>
    intro st0 evs arch st' h
    cases h
    rfl
  | cons o rest ih =>
    intro st0 evs arch st' h
    cases o with
    | none => exact ih st0 evs arch st' h
    | some l =>
      rcases hp : parse_output_line keyOk st0 l with ⟨evsl, out⟩
      cases out with
      | error e =>
        rw [monitor_coordinator, hp] at h
        simp [MonitorResult.mk.injEq] at h
      | ok st1 =>
        rw [monitor_coordinator, hp] at h
        rcases hr : monitor_coordinator keyOk st1 rest with ⟨evsr, archr, outr⟩
        simp only [hr, MonitorResult.mk.injEq] at h
        obtain ⟨he, ha, ho⟩ := h
        subst ha
        rw [List.filterMap_cons]
        simp only [id]
        rw [ho] at hr
        exact congrArg (List.cons l) (ih st1 evsr archr st' hr)

lemma monitor_append_fatal (keyOk : Line → Bool) :
    ∀ (pre : List (Option Line)) (st0 : CoordinatorState) (evs : List CeremonyMessage)
      (arch : List Line) (st' : CoordinatorState) (bad : Line)
      (rest : List (Option Line)) (e : ParseErr),
      monitor_coordinator keyOk st0 pre = ⟨evs, arch, .ok st'⟩ →
      (parse_output_line keyOk st' bad).2 = .error e →
        monitor_coordinator keyOk st0 (pre ++ some bad :: rest)
          = ⟨evs ++ (parse_output_line keyOk st' bad).1, arch, .error e⟩ := by
  intro pre
  induction pre with
  | nil =>
    intro st0 evs arch st' bad rest e h1 h2
    cases h1
    rcases hp : parse_output_line keyOk st0 bad with ⟨evsb, outb⟩
    rw [hp] at h2
    simp only at h2
    subst h2
    simp [monitor_coordinator, hp]
  | cons o pre' ih =>
    intro st0 evs arch st' bad rest e h1 h2
    cases o with
    | none =>
      simpa [monitor_coordinator] using
        ih st0 evs arch st' bad rest e h1 h2
    | some l =>
      rcases hp : parse_output_line keyOk st0 l with ⟨evsl, out⟩
      cases out with
      | error e0 =>
        rw [monitor_coordinator, hp] at h1
        simp [MonitorResult.mk.injEq] at h1
      | ok st1 =>
        rw [monitor_coordinator, hp] at h1
        rcases hr : monitor_coordinator keyOk st1 pre' with ⟨evsr, archr, outr⟩
        simp only [hr, MonitorResult.mk.injEq] at h1
        obtain ⟨he, ha, ho⟩ := h1
        rw [ho] at hr
        have hrec := ih st1 evsr archr st' bad rest e hr h2
        rw [List.cons_append, monitor_coordinator, hp]
        simp only [hrec, MonitorResult.mk.injEq]
        exact ⟨by rw [← he, List.append_assoc], ha, trivial⟩

set_option maxRecDepth 40000 in
/-- C1 counterexample: a run that boots, starts round 1, and then reads a
contribution line whose chunk number overflows `u64` stops with a fatal
number-parse error, and the fatal line is NOT appended to the archive log
(only the two earlier lines are), contradicting the claim that every
successfully read line, including the one triggering the fatal error, is
archived. -/
theorem C1_counterexample :
    monitor_coordinator (fun _ => true) CoordinatorState.processStarted
        [some "Coordinator has booted up".data,
         some "Advanced ceremony to round 1".data,
         some "aleo1a.contributor added a contribution to chunk 99999999999999999999".data]
      = ⟨[CeremonyMessage.roundWaitingForParticipants 1, CeremonyMessage.roundStarted 1],
         ["Coordinator has booted up".data, "Advanced ceremony to round 1".data],
         Except.error ParseErr.numberParse⟩
    ∧ (["Coordinator has booted up".data, "Advanced ceremony to round 1".data].contains
        "aleo1a.contributor added a contribution to chunk 99999999999999999999".data)
      = false := by
  decide

/-- C1 amended: when a monitoring session reads a line whose processing
raises a fatal parse error, every successfully read line before it is in
the archive log (the archive of an error-free run is exactly its
successfully read lines), but the line that triggered the fatal error is
not archived, and the loop stops there. -/
theorem C1_amended_archive_stops_before_fatal (keyOk : Line → Bool)
    (st0 st' : CoordinatorState) (pre : List (Option Line)) (bad : Line)
    (rest : List (Option Line)) (evs : List CeremonyMessage) (arch : List Line)
    (e : ParseErr)
    (h1 : monitor_coordinator keyOk st0 pre = ⟨evs, arch, .ok st'⟩)
    (h2 : (parse_output_line keyOk st' bad).2 = .error e) :
    monitor_coordinator keyOk st0 (pre ++ some bad :: rest)
      = ⟨evs ++ (parse_output_line keyOk st' bad).1, arch, .error e⟩
    ∧ arch = pre.filterMap id :=
  ⟨monitor_append_fatal keyOk pre st0 evs arch st' bad rest e h1 h2,
    monitor_ok_archived keyOk pre st0 evs arch st' h1⟩

set_option maxRecDepth 40000 in
/-- Witness for C1's amended claim at the concrete overflowing run. -/
theorem C1_amended_archive_stops_before_fatal_witness :
    monitor_coordinator (fun _ => true) CoordinatorState.processStarted
        ([some "Coordinator has booted up".data,
          some "Advanced ceremony to round 1".data]
          ++ some "aleo1a.contributor added a contribution to chunk 99999999999999999999".data
            :: [])
      = ⟨[CeremonyMessage.roundWaitingForParticipants 1, CeremonyMessage.roundStarted 1]
          ++ (parse_output_line (fun _ => true) (CoordinatorState.roundRunning 1)
              "aleo1a.contributor added a contribution to chunk 99999999999999999999".data).1,
         ["Coordinator has booted up".data, "Advanced ceremony to round 1".data],
         Except.error ParseErr.numberParse⟩
    ∧ ["Coordinator has booted up".data, "Advanced ceremony to round 1".data]
        = List.filterMap id
            [some "Coordinator has booted up".data,
             some "Advanced ceremony to round 1".data] :=
  C1_amended_archive_stops_before_fatal (fun _ => true)
    CoordinatorState.processStarted (CoordinatorState.roundRunning 1)
    [some "Coordinator has booted up".data, some "Advanced ceremony to round 1".data]
    "aleo1a.contributor added a contribution to chunk 99999999999999999999".data
    []
    [CeremonyMessage.roundWaitingForParticipants 1, CeremonyMessage.roundStarted 1]
    ["Coordinator has booted up".data, "Advanced ceremony to round 1".data]
    ParseErr.numberParse (by decide) (by decide)

/-- The round number carried by an event, when it carries one. -/
def eventRound : CeremonyMessage → Option Nat
  | .roundWaitingForParticipants r => some r
  | .roundStarted r => some r
  | .roundStartedAggregation r => some r
  | .roundAggregated r => some r
  | .roundFinished r => some r
  | .participantDropped _ => none
  | .successfulContribution _ _ => none
  | .shutdown _ => none

/-- The round number stored in a phase (`0` before the first round). -/
def stateRound : CoordinatorState → Nat
  | .processStarted => 0
  | .roundWaitingForParticipants r => r
  | .roundRunning r => r
  | .roundAggregating r => r
  | .roundWaitingForFinish r => r
  | .roundFinished r => r

/-- The round numbers carried by a sequence of events, in order. -/
def eventRounds (evs : List CeremonyMessage) : List Nat :=
  evs.filterMap eventRound

lemma check_dropped_event (keyOk : Line → Bool) (line : Line) (m : CeremonyMessage)
    (h : check_participant_dropped keyOk line = .ok (some m)) :
    ∃ p, m = .participantDropped p := by
  rcases hc : droppedCapture line with _ | ⟨addr, role⟩ <;>
    simp only [check_participant_dropped, hc] at h
  · cases h
  · by_cases hk : keyOk addr = true
    · rw [if_pos hk] at h
      by_cases h1 : role = "contributor".data
      · rw [if_pos h1] at h
        exact ⟨ParticipantRef.contributor addr, (Option.some.inj (Except.ok.inj h)).symm⟩
      · rw [if_neg h1] at h
        by_cases h2 : role = "verifier".data
        · rw [if_pos h2] at h
          exact ⟨ParticipantRef.verifier addr, (Option.some.inj (Except.ok.inj h)).symm⟩
        · rw [if_neg h2] at h
          cases h
    · rw [if_neg hk] at h
      cases h

lemma check_dropped_eventRounds (keyOk : Line → Bool) (line : Line)
    (dropEv : Option CeremonyMessage)
    (h : check_participant_dropped keyOk line = .ok dropEv) :
    List.filterMap eventRound dropEv.toList = [] := by
  cases dropEv with
  | none => rfl
  | some m =>
    obtain ⟨p, rfl⟩ := check_dropped_event keyOk line m h
    rfl

lemma pairwise_le_of_short :
    ∀ (l : List Nat), l.length ≤ 1 → List.Pairwise (fun a b => a ≤ b) l
  | [], _ => List.Pairwise.nil
  | [_], _ => by simp
  | _ :: _ :: _, h => by simp at h

/-- One step of the state machine moves the stored round forward and only
emits events whose round lies between the old and the new stored round;
at most one emitted event per line carries a round at all. -/
lemma parse_round_bounds (keyOk : Line → Bool) (st : CoordinatorState) (line : Line) :
    (∀ r ∈ eventRounds (parse_output_line keyOk st line).1, stateRound st ≤ r)
    ∧ (eventRounds (parse_output_line keyOk st line).1).length ≤ 1
    ∧ ∀ st', (parse_output_line keyOk st line).2 = .ok st' →
        stateRound st ≤ stateRound st'
          ∧ ∀ r ∈ eventRounds (parse_output_line keyOk st line).1, r ≤ stateRound st' := by
  cases st with
  | processStarted =>
    by_cases hb : bootedIsMatch line = true <;>
      simp [parse_output_line, hb, eventRounds, eventRound, stateRound]
  | roundWaitingForParticipants round =>
    rcases hcd : check_participant_dropped keyOk line with e | dropEv
    · simp [parse_output_line, hcd, eventRounds]
    · have hdr : List.filterMap eventRound dropEv.toList = [] :=
        check_dropped_eventRounds keyOk line dropEv hcd
      by_cases hs : roundStartedIsMatch line = true <;>
        simp [parse_output_line, hcd, hs, eventRounds, List.filterMap_append, hdr,
          eventRound, stateRound]
  | roundRunning round =>
    rcases hcd : check_participant_dropped keyOk line with e | dropEv
    · simp [parse_output_line, hcd, eventRounds]
    · have hdr : List.filterMap eventRound dropEv.toList = [] :=
        check_dropped_eventRounds keyOk line dropEv hcd
      simp only [parse_output_line, hcd]
      rcases hcc : contributionCapture line with _ | ⟨addr, ds⟩
      · by_cases ha : roundStartedAggregationIsMatch line = true <;>
          by_cases hn : roundRestartedNoContributorsIsMatch line = true <;>
          simp [ha, hn, eventRounds, List.filterMap_append, hdr, eventRound, stateRound]
      · rcases hu : u64FromDigits ds with _ | chunk
        · by_cases ha : roundStartedAggregationIsMatch line = true <;>
            by_cases hn : roundRestartedNoContributorsIsMatch line = true <;>
            simp [ha, hn, hu, eventRounds, List.filterMap_append, hdr, eventRound,
              stateRound]
        · by_cases hk : keyOk addr = true <;>
            by_cases ha : roundStartedAggregationIsMatch line = true <;>
            by_cases hn : roundRestartedNoContributorsIsMatch line = true <;>
            simp [hk, ha, hn, hu, eventRounds, List.filterMap_append, hdr, eventRound,
              stateRound]
  | roundAggregating round =>
    by_cases hb : roundAggregatedIsMatch line = true <;>
      simp [parse_output_line, hb, eventRounds, eventRound, stateRound]
  | roundWaitingForFinish round =>
    by_cases hb : roundFinishedIsMatch line = true <;>
      simp [parse_output_line, hb, eventRounds, eventRound, stateRound]
  | roundFinished round =>
    simp [parse_output_line, eventRounds, eventRound, stateRound]

/-- Over a whole run from any state: the emitted round numbers are
non-decreasing, bounded below by the starting stored round, and (when no
fatal error occurs) bounded above by the final stored round, which never
went down. -/
lemma processLines_round_bounds (keyOk : Line → Bool) :
    ∀ (lines : List Line) (st : CoordinatorState),
      List.Pairwise (fun a b => a ≤ b) (eventRounds (processLines keyOk st lines).1)
      ∧ (∀ r ∈ eventRounds (processLines keyOk st lines).1, stateRound st ≤ r)
      ∧ ∀ st', (processLines keyOk st lines).2 = .ok st' →
          stateRound st ≤ stateRound st'
            ∧ ∀ r ∈ eventRounds (processLines keyOk st lines).1, r ≤ stateRound st' := by
  intro lines
  induction lines with
  | nil =>
    intro st
    refine ⟨by simp [processLines, eventRounds], by simp [processLines, eventRounds], ?_⟩
    intro st' h
    simp only [processLines] at h
    cases h
    simp [processLines, eventRounds]
  | cons line rest ih =>
    intro st
    obtain ⟨s1, s2, s3⟩ := parse_round_bounds keyOk st line
    rcases hp : parse_output_line keyOk st line with ⟨evs1, out1⟩
    rw [hp] at s1 s2 s3
    simp only at s1 s2 s3
    cases out1 with
    | error e =>
      simp only [processLines, hp]
      refine ⟨pairwise_le_of_short _ s2, s1, ?_⟩
      intro st' h
      cases h
    | ok st1 =>
      obtain ⟨hst1, hub⟩ := s3 st1 rfl
      obtain ⟨ih1, ih2, ih3⟩ := ih st1
      simp only [processLines, hp]
      have hsplit : eventRounds (evs1 ++ (processLines keyOk st1 rest).1)
          = eventRounds evs1 ++ eventRounds (processLines keyOk st1 rest).1 := by
        simp [eventRounds, List.filterMap_append]
      refine ⟨?_, ?_, ?_⟩
      · rw [hsplit, List.pairwise_append]
        refine ⟨pairwise_le_of_short _ s2, ih1, ?_⟩
        intro a ha b hb
        exact le_trans (hub a ha) (ih2 b hb)
      · rw [hsplit]
        intro r hr
        rcases List.mem_append.mp hr with h | h
        · exact s1 r h
        · exact le_trans hst1 (ih2 r h)
      · intro st' h
        obtain ⟨hst', hub'⟩ := ih3 st' h
        refine ⟨le_trans hst1 hst', ?_⟩
        rw [hsplit]
        intro r hr
        rcases List.mem_append.mp hr with hm | hm
        · exact le_trans (hub r hm) hst'
        · exact hub' r hm

/-- Processing `pre ++ suf` is processing `pre`, then `suf` from the
reached state (stopping at the first fatal error). -/
lemma processLines_append (keyOk : Line → Bool) :
    ∀ (pre suf : List Line) (st : CoordinatorState),
      processLines keyOk st (pre ++ suf)
        = match processLines keyOk st pre with
          | (evs, .error e) => (evs, .error e)
          | (evs, .ok st') =>
            (evs ++ (processLines keyOk st' suf).1, (processLines keyOk st' suf).2) := by
  intro pre
  induction pre with
  | nil =>
    intro suf st
    simp [processLines]
  | cons line rest ih =>
    intro suf st
    rcases hp : parse_output_line keyOk st line with ⟨evs1, out1⟩
    cases out1 with
    | error e =>
      simp [processLines, hp]
    | ok st1 =>
      rcases hq : processLines keyOk st1 rest with ⟨evs2, out2⟩
      cases out2 with
      | error e =>
        simp [processLines, hp, ih suf st1, hq]
      | ok st2 =>
        simp [processLines, hp, ih suf st1, hq, List.append_assoc]

/-- C5: round numbers in the events emitted by one freshly constructed
state machine never decrease over any line sequence, and the round stored
in the phase is non-decreasing from any successful run to any successful
extension of it. -/
theorem C5_round_monotonicity (keyOk : Line → Bool) (lines pre suf : List Line)
    (evs1 evs2 : List CeremonyMessage) (st1 st2 : CoordinatorState)
    (h1 : processLines keyOk CoordinatorState.processStarted pre = (evs1, .ok st1))
    (h2 : processLines keyOk CoordinatorState.processStarted (pre ++ suf)
      = (evs2, .ok st2)) :
    List.Pairwise (fun a b => a ≤ b)
      (eventRounds (processLines keyOk CoordinatorState.processStarted lines).1)
    ∧ stateRound st1 ≤ stateRound st2 := by
  refine ⟨(processLines_round_bounds keyOk lines _).1, ?_⟩
  have hap := processLines_append keyOk pre suf CoordinatorState.processStarted
  rw [h1, h2] at hap
  simp only at hap
  have h3 : (processLines keyOk st1 suf).2 = .ok st2 := by
    have := congrArg Prod.snd hap
    simpa using this.symm
  exact ((processLines_round_bounds keyOk suf st1).2.2 st2 h3).1

/-- Witness for C5 at a concrete one-line run and its trivial extension. -/
theorem C5_round_monotonicity_witness :
    List.Pairwise (fun a b => a ≤ b)
      (eventRounds (processLines (fun _ => true) CoordinatorState.processStarted
        ["Coordinator has booted up".data]).1)
    ∧ stateRound (CoordinatorState.roundWaitingForParticipants 1)
        ≤ stateRound (CoordinatorState.roundWaitingForParticipants 1) :=
  C5_round_monotonicity (fun _ => true)
    ["Coordinator has booted up".data] ["Coordinator has booted up".data] []
    [CeremonyMessage.roundWaitingForParticipants 1]
    [CeremonyMessage.roundWaitingForParticipants 1]
    (CoordinatorState.roundWaitingForParticipants 1)
    (CoordinatorState.roundWaitingForParticipants 1)
    (by decide) (by decide)

set_option maxRecDepth 40000 in
/-- C8 counterexample: in `RoundRunning(3)`, a line that names a dropped
contributor but also contains the aggregation phrase emits the
`ParticipantDropped` event AND `RoundStartedAggregation(3)`, and the phase
moves to `RoundAggregating(3)` instead of staying `RoundRunning(3)`,
contradicting the claim that the phase always stays put. -/
theorem C8_counterexample :
    parse_output_line (fun _ => true) (CoordinatorState.roundRunning 3)
        "Dropping aleo1a.contributor from the ceremony Starting aggregation on round 3".data
      = ([CeremonyMessage.participantDropped (ParticipantRef.contributor "aleo1a".data),
          CeremonyMessage.roundStartedAggregation 3],
          Except.ok (CoordinatorState.roundAggregating 3))
    ∧ droppedCapture
        "Dropping aleo1a.contributor from the ceremony Starting aggregation on round 3".data
      = some ("aleo1a".data, "contributor".data) := by
  decide

/-- C8 amended: participant-drop detection fires exactly in the two
drop-checking phases.  In `RoundRunning(r)`, a line naming a dropped
contributor (with parsable address) that matches no other phase pattern
emits exactly the one `ParticipantDropped` event and the phase stays
`RoundRunning(r)`; the same line in `WaitingForParticipants(r)` also emits
its `ParticipantDropped` event; and no other phase ever emits a
`ParticipantDropped` event. -/
theorem C8_amended_drop_detection (keyOk : Line → Bool) (r : Nat) (line : Line)
    (addr : Line)
    (hc : droppedCapture line = some (addr, "contributor".data))
    (hk : keyOk addr = true)
    (ha : roundStartedAggregationIsMatch line = false)
    (hn : roundRestartedNoContributorsIsMatch line = false)
    (hs : contributionCapture line = none) :
    parse_output_line keyOk (CoordinatorState.roundRunning r) line
      = ([CeremonyMessage.participantDropped (ParticipantRef.contributor addr)],
          Except.ok (CoordinatorState.roundRunning r))
    ∧ CeremonyMessage.participantDropped (ParticipantRef.contributor addr)
        ∈ (parse_output_line keyOk (CoordinatorState.roundWaitingForParticipants r) line).1
    ∧ (∀ p, CeremonyMessage.participantDropped p
        ∉ (parse_output_line keyOk CoordinatorState.processStarted line).1)
    ∧ (∀ q p, CeremonyMessage.participantDropped p
        ∉ (parse_output_line keyOk (CoordinatorState.roundAggregating q) line).1)
    ∧ (∀ q p, CeremonyMessage.participantDropped p
        ∉ (parse_output_line keyOk (CoordinatorState.roundWaitingForFinish q) line).1)
    ∧ (∀ q p, CeremonyMessage.participantDropped p
        ∉ (parse_output_line keyOk (CoordinatorState.roundFinished q) line).1) := by
  have hcd : check_participant_dropped keyOk line
      = .ok (some (.participantDropped (.contributor addr))) := by
    simp [check_participant_dropped, hc, hk]
  refine ⟨?_, ?_, ?_, ?_, ?_, ?_⟩
  · simp [parse_output_line, hcd, ha, hn, hs]
  · by_cases hrs : roundStartedIsMatch line = true <;>
      simp [parse_output_line, hcd, hrs]
  · by_cases hb : bootedIsMatch line = true <;>
      simp [parse_output_line, hb]
  · intro q p
    by_cases hb : roundAggregatedIsMatch line = true <;>
      simp [parse_output_line, hb]
  · intro q p
    by_cases hb : roundFinishedIsMatch line = true <;>
      simp [parse_output_line, hb]
  · intro q p
    simp [parse_output_line]

set_option maxRecDepth 40000 in
/-- Witness for C8's amended claim at a concrete plain drop line. -/
theorem C8_amended_drop_detection_witness :
    parse_output_line (fun _ => true) (CoordinatorState.roundRunning 3)
        "Dropping aleo1a.contributor from the ceremony".data
      = ([CeremonyMessage.participantDropped (ParticipantRef.contributor "aleo1a".data)],
          Except.ok (CoordinatorState.roundRunning 3))
    ∧ CeremonyMessage.participantDropped (ParticipantRef.contributor "aleo1a".data)
        ∈ (parse_output_line (fun _ => true)
            (CoordinatorState.roundWaitingForParticipants 3)
            "Dropping aleo1a.contributor from the ceremony".data).1
    ∧ (∀ p, CeremonyMessage.participantDropped p
        ∉ (parse_output_line (fun _ => true) CoordinatorState.processStarted
            "Dropping aleo1a.contributor from the ceremony".data).1)
    ∧ (∀ q p, CeremonyMessage.participantDropped p
        ∉ (parse_output_line (fun _ => true) (CoordinatorState.roundAggregating q)
            "Dropping aleo1a.contributor from the ceremony".data).1)
    ∧ (∀ q p, CeremonyMessage.participantDropped p
        ∉ (parse_output_line (fun _ => true) (CoordinatorState.roundWaitingForFinish q)
            "Dropping aleo1a.contributor from the ceremony".data).1)
    ∧ (∀ q p, CeremonyMessage.participantDropped p
        ∉ (parse_output_line (fun _ => true) (CoordinatorState.roundFinished q)
            "Dropping aleo1a.contributor from the ceremony".data).1) :=
  C8_amended_drop_detection (fun _ => true) 3
    "Dropping aleo1a.contributor from the ceremony".data "aleo1a".data
    (by decide) (by decide) (by decide) (by decide) (by decide)

end AleoSetupTest
